import Mathlib

/-!
# Verification of the ConferenceRoomDisplay credential manager

Shallow embedding of `src/server.js` (the `TokenManager` class, the
`authenticatedFetch` executor, the `/api/appointments` handler and the
`filterRelevantAppointments` function) in Lean 4, together with theorems
settling the specification claims.

Modelling conventions:
* JavaScript timestamps (`Date`) are `Int` milliseconds since the epoch;
  `Date.now()` at a given program point is an explicit `now : Int` parameter.
  `toISOString` / `new Date(iso)` round-trip a valid date exactly at
  millisecond precision, so persisted `tokenExpiry` is modelled as the
  integer itself.
* Nullable JS values (`null` / `undefined` / absent JSON field) are `Option`.
  JS truthiness on strings (both `null` and `""` are falsy) is made explicit
  by `jsTruthyStr` / `jsOrStr`; truthiness of `expires_in` (where `0` is
  falsy) by `jsOrNum`.
* Outbound HTTP is not executed: every `fetch` of the refresh endpoint is a
  `RefreshOutcome` supplied to the function (success with a parsed JSON body,
  non-2xx status, or a thrown transport error), and every bearer-authenticated
  API fetch is a status code supplied from a list.
* A thrown JS `Error` is an `Except .error`; the model keeps the error kind
  and, where the code dispatches on `error.message` (the `includes('401')`
  check), the actual message strings built by the source.
-/

/-- JS truthiness of a nullable string: `null`, `undefined` and `""` are falsy. -/
def jsTruthyStr : Option String → Bool
  | none => false
  | some s => s ≠ ""

/-- JS `a || b` on nullable strings: returns `b` when `a` is `null`/`""`. -/
def jsOrStr (a b : Option String) : Option String :=
  if jsTruthyStr a then a else b

/-- JS `a || d` for a nullable number with default `d`: `null`, `undefined`
and `0` are falsy. -/
def jsOrNum (a : Option Int) (d : Int) : Int :=
  match a with
  | none => d
  | some n => if n = 0 then d else n

/-- In-memory state of `TokenManager`: fields `accessToken`, `refreshToken`,
`tokenExpiry` (`src/server.js` lines 19-21). -/
structure TokenState where
  accessToken : Option String
  refreshToken : Option String
  tokenExpiry : Option Int
  deriving Repr, DecidableEq

/-- The record written to / read from `tokens.json`
(`src/server.js` lines 108-112): fields `accessToken`, `refreshToken`,
`tokenExpiry` (ISO-8601 string or `null`, modelled as the millisecond value). -/
structure TokenRecord where
  accessToken : Option String
  refreshToken : Option String
  tokenExpiry : Option Int
  deriving Repr, DecidableEq

/-- Parsed JSON body of a successful refresh response
(`data` in `refreshAccessToken`, `src/server.js` lines 89-95): optional
`access_token`, `token`, `refresh_token`, `expires_in`. -/
structure RefreshResponse where
  access_token : Option String
  token : Option String
  refresh_token : Option String
  expires_in : Option Int
  deriving Repr, DecidableEq

/-- Result of one `fetch` of the refresh endpoint, supplied to the model:
either a 2xx response with a parsed JSON body, a non-2xx status with the
response text, or a thrown transport error. -/
inductive RefreshOutcome where
  | success (data : RefreshResponse)
  | httpError (status : Nat) (body : String)
  | networkError
  deriving Repr, DecidableEq

/-- The error thrown by `refreshAccessToken`: missing refresh token
(line 66), non-2xx upstream status (line 86), or a transport failure
rethrown by the `catch` (line 103). -/
inductive RefreshError where
  | noRefreshToken
  | httpError (status : Nat) (body : String)
  | networkError
  deriving Repr, DecidableEq

/-- `TokenManager.needsRefresh` (`src/server.js` lines 57-62):
`true` when `tokenExpiry` is null, or when it is `<=` five minutes from
`now` (`this.tokenExpiry <= new Date(Date.now() + 5 * 60 * 1000)`). -/
def needsRefresh (now : Int) (st : TokenState) : Bool :=
  match st.tokenExpiry with
  | none => true
  | some e => e ≤ now + 5 * 60 * 1000

/-- `TokenManager.saveTokens` (`src/server.js` lines 107-115): the record
serialised to `tokens.json`, built from the current instance fields. -/
def saveTokens (st : TokenState) : TokenRecord :=
  { accessToken := st.accessToken
    refreshToken := st.refreshToken
    tokenExpiry := st.tokenExpiry }

/-- The field assignments of a successful refresh
(`src/server.js` lines 91-96), performed with no intervening `await`:
`accessToken = data.access_token || data.token`,
`refreshToken = data.refresh_token || this.refreshToken`,
`tokenExpiry = new Date(Date.now() + (data.expires_in || 3600) * 1000)`. -/
def applyRefreshResponse (st : TokenState) (now : Int) (data : RefreshResponse) :
    TokenState :=
  { accessToken := jsOrStr data.access_token data.token
    refreshToken := jsOrStr data.refresh_token st.refreshToken
    tokenExpiry := some (now + jsOrNum data.expires_in 3600 * 1000) }

/-- `TokenManager.refreshAccessToken` (`src/server.js` lines 64-105) as a
state transformer.  `now` is `Date.now()` at refresh completion (line 96);
`outcome` is the result of the `fetch` at line 77.  Returns the thrown error
or `()`, the instance state when control leaves the method (errors are thrown
before any field is assigned), and the record written to `tokens.json` by
`saveTokens` if the write happened. -/
def refreshAccessToken (st : TokenState) (now : Int) (outcome : RefreshOutcome) :
    Except RefreshError Unit × TokenState × Option TokenRecord :=
  if ¬ jsTruthyStr st.refreshToken then
    (Except.error RefreshError.noRefreshToken, st, none)
  else
    match outcome with
    | RefreshOutcome.networkError => (Except.error RefreshError.networkError, st, none)
    | RefreshOutcome.httpError status body =>
        (Except.error (RefreshError.httpError status body), st, none)
    | RefreshOutcome.success data =>
        let st' := applyRefreshResponse st now data
        (Except.ok (), st', some (saveTokens st'))

/-- The environment variables read by `server.js`: `DAYLITE_ACCESS_TOKEN`
(line 43) and `DAYLITE_REFRESH_TOKEN` (line 20).  `none` means unset. -/
structure Env where
  DAYLITE_ACCESS_TOKEN : Option String
  DAYLITE_REFRESH_TOKEN : Option String
  deriving Repr, DecidableEq

/-- The `TokenManager` constructor (`src/server.js` lines 17-22):
`accessToken = null`, `refreshToken = process.env.DAYLITE_REFRESH_TOKEN || null`,
`tokenExpiry = null`. -/
def TokenManager.construct (env : Env) : TokenState :=
  { accessToken := none
    refreshToken :=
      if jsTruthyStr env.DAYLITE_REFRESH_TOKEN then env.DAYLITE_REFRESH_TOKEN else none
    tokenExpiry := none }

/-- Contents of `tokens.json` as seen by `initialize`: `none` when the file is
missing or unreadable (`fs.readFile` throws), `some (Except.error ())` when it
reads but `JSON.parse` throws (corrupt JSON), `some (Except.ok rec)` when it
parses to `rec`. -/
abbrev FileState := Option (Except Unit TokenRecord)

/-- The field assignments performed after a successful load
(`src/server.js` lines 29-31): `accessToken = tokens.accessToken`,
`refreshToken = tokens.refreshToken || this.refreshToken`,
`tokenExpiry = tokens.tokenExpiry ? new Date(tokens.tokenExpiry) : null`
(an ISO string from `saveTokens` is never empty, so its truthiness is
non-nullness). -/
def loadIntoState (st : TokenState) (rec : TokenRecord) : TokenState :=
  { accessToken := rec.accessToken
    refreshToken := jsOrStr rec.refreshToken st.refreshToken
    tokenExpiry := rec.tokenExpiry }

/-- Error thrown out of `initialize`: the `'No tokens available...'` error of
line 52, or an error of the catch-branch `refreshAccessToken` call of line 50
propagating out. -/
inductive InitError where
  | noTokens
  | refreshFailed (e : RefreshError)
  deriving Repr, DecidableEq

/-- Outcome of `initialize`: the thrown error or `()`, the instance state when
control leaves the method, and the final contents of `tokens.json`. -/
structure InitResult where
  result : Except InitError Unit
  st : TokenState
  file : FileState

/-- Apply a `saveTokens` write (if one happened) to the file contents. -/
def applyWrite (file : FileState) : Option TokenRecord → FileState
  | none => file
  | some r => some (Except.ok r)

/-- The catch branch of `initialize` (`src/server.js` lines 39-54): if
`process.env.DAYLITE_ACCESS_TOKEN` is truthy, seed it with a one-hour expiry
and save; else if `this.refreshToken` is truthy, refresh (the thrown error, if
any, propagates out of `initialize`); else throw `'No tokens available...'`. -/
def initCatch (env : Env) (st : TokenState) (file : FileState) (now : Int)
    (outcome : RefreshOutcome) : InitResult :=
  if jsTruthyStr env.DAYLITE_ACCESS_TOKEN then
    let st' : TokenState :=
      { st with accessToken := env.DAYLITE_ACCESS_TOKEN
                tokenExpiry := some (now + 60 * 60 * 1000) }
    { result := Except.ok (), st := st', file := applyWrite file (some (saveTokens st')) }
  else if jsTruthyStr st.refreshToken then
    match refreshAccessToken st now outcome with
    | (Except.ok _, st', w) => { result := Except.ok (), st := st', file := applyWrite file w }
    | (Except.error e, st', _) =>
        { result := Except.error (InitError.refreshFailed e), st := st', file := file }
  else
    { result := Except.error InitError.noTokens, st := st, file := file }

/-- `TokenManager.initialize` (`src/server.js` lines 24-55) on a freshly
constructed manager.  `file` is the contents of `tokens.json`; `outcomes`
feeds the successive `refreshAccessToken` calls in order (at most two can
occur: the needs-refresh one inside the `try`, then the catch-branch one).
The `try` block covers the read, the parse, the load assignments and the
needs-refresh refresh; any throw from it lands in the catch branch. -/
def TokenManager.init (env : Env) (file : FileState) (now : Int)
    (outcomes : List RefreshOutcome) : InitResult :=
  let st0 := TokenManager.construct env
  match file with
  | some (Except.ok rec) =>
      let st1 := loadIntoState st0 rec
      if needsRefresh now st1 then
        match refreshAccessToken st1 now (outcomes.headD RefreshOutcome.networkError) with
        | (Except.ok _, st2, w) =>
            { result := Except.ok (), st := st2, file := applyWrite file w }
        | (Except.error _, st2, _) =>
            initCatch env st2 file now (outcomes.tail.headD RefreshOutcome.networkError)
      else
        { result := Except.ok (), st := st1, file := file }
  | _ => initCatch env st0 file now (outcomes.headD RefreshOutcome.networkError)

/-- Result of `startServer` (`src/server.js` lines 307-319): `app.listen` on
success, `process.exit(1)` when `initialize` throws. -/
inductive ServerStatus where
  | listening
  | exited (code : Nat)
  deriving Repr, DecidableEq

/-- `startServer` (`src/server.js` lines 307-319). -/
def startServer (env : Env) (file : FileState) (now : Int)
    (outcomes : List RefreshOutcome) : ServerStatus :=
  match (TokenManager.init env file now outcomes).result with
  | Except.ok _ => ServerStatus.listening
  | Except.error _ => ServerStatus.exited 1

/-- The JS template literal `` `Bearer ${this.accessToken}` `` of line 121:
interpolating a nullish `accessToken` yields the literal text `"Bearer null"`
(resp. `"Bearer undefined"`); no claim distinguishes the two nullish spellings,
so both are rendered `"Bearer null"`. -/
def bearer : Option String → String
  | some s => "Bearer " ++ s
  | none => "Bearer null"

/-- `TokenManager.getValidToken` (`src/server.js` lines 117-122) for a single
caller: refresh when `needsRefresh()`, then return
`` `Bearer ${this.accessToken}` ``. -/
def getValidToken (st : TokenState) (now : Int) (outcome : RefreshOutcome) :
    Except RefreshError String × TokenState × Option TokenRecord :=
  if needsRefresh now st then
    match refreshAccessToken st now outcome with
    | (Except.ok _, st', w) => (Except.ok (bearer st'.accessToken), st', w)
    | (Except.error e, st', w) => (Except.error e, st', w)
  else
    (Except.ok (bearer st.accessToken), st, none)

/-- An appointment object as built by `getAppointmentsForToday`
(`src/server.js` lines 245-251): `start`, `end` (timestamps), `names`,
`room`, `title`. -/
structure Appointment where
  start : Int
  «end» : Int
  names : List String
  room : String
  title : String
  deriving Repr, DecidableEq

/-- The object produced by the `.map` in `filterRelevantAppointments`
(`src/server.js` lines 290-302): the spread of the appointment plus `status`
and `minutesUntilStart`.  The `formattedStartTime` / `formattedEndTime`
fields are locale- and timezone-dependent renderings of `start` / `end` and
are not modelled; no claim mentions them. -/
structure DisplayAppointment where
  appt : Appointment
  status : String
  minutesUntilStart : Int
  deriving Repr, DecidableEq

/-- JS `Math.round` applied to the exact rational `d / 60000` (milliseconds to
minutes, `src/server.js` line 287): rounds half away from zero upward, i.e.
`⌊d / 60000 + 1/2⌋ = ⌊(2 * d + 60000) / 120000⌋`. -/
def roundMinutes (d : Int) : Int :=
  Int.fdiv (2 * d + 60000) 120000

/-- `filterRelevantAppointments` (`src/server.js` lines 258-304) with
`new Date()` made the explicit parameter `now`: keep appointments with
`startTime > now && startTime <= thirtyMinutesFromNow` or
`startTime <= now && endTime > now`, then decorate each with `status` and
`minutesUntilStart`. -/
def filterRelevantAppointments (now : Int) (appointments : List Appointment) :
    List DisplayAppointment :=
  (appointments.filter fun appt =>
      let startsWithin30Min : Bool :=
        appt.start > now && appt.start ≤ now + 30 * 60 * 1000
      let currentlyInProgress : Bool :=
        appt.start ≤ now && appt.«end» > now
      startsWithin30Min || currentlyInProgress).map
    fun appt =>
      if appt.start ≤ now ∧ appt.«end» > now then
        { appt := appt, status := "in-progress", minutesUntilStart := 0 }
      else
        { appt := appt, status := "upcoming"
          minutesUntilStart := roundMinutes (appt.start - now) }

/-- Continuation point of one `getValidToken` caller inside the event loop:
about to run the synchronous `needsRefresh()` check; suspended at the
refresh-endpoint `await fetch` (the following `await response.json()` /
`await response.text()` resumption is conflated with it — no shared field is
touched in between); suspended at the `await fs.writeFile` inside
`saveTokens`, holding the record serialised synchronously at the
`saveTokens()` call; or returned/thrown. -/
inductive CallerPhase where
  | ready
  | awaitingFetch
  | awaitingSave (rec : TokenRecord)
  | done (r : Except RefreshError String)
  deriving Repr

/-- Shared mutable state of the process while several `getValidToken` calls
are in flight on the one `tokenManager` instance: the `TokenManager` fields,
the contents of `tokens.json`, the number of refresh-endpoint fetches issued
so far, and each caller's continuation. -/
structure ConcState where
  tok : TokenState
  file : Option TokenRecord
  refreshCalls : Nat
  callers : List CallerPhase
  deriving Repr

/-- One event-loop resumption.  `outcomes` gives the refresh-endpoint result
each caller's own `fetch` will resolve to; the event `(i, now)` resumes caller
`i` at wall-clock time `now` and runs it up to its next suspension point,
exactly as the source's `await`s delimit the synchronous segments of
`getValidToken` / `refreshAccessToken` / `saveTokens`. -/
def concStep (outcomes : List RefreshOutcome) (s : ConcState) (ev : Nat × Int) :
    ConcState :=
  match s.callers.get? ev.1 with
  | none => s
  | some phase =>
    match phase with
    | CallerPhase.ready =>
        if needsRefresh ev.2 s.tok then
          if jsTruthyStr s.tok.refreshToken then
            { s with refreshCalls := s.refreshCalls + 1,
                     callers := s.callers.set ev.1 CallerPhase.awaitingFetch }
          else
            { s with callers := (s.callers.set ev.1
                (CallerPhase.done (Except.error RefreshError.noRefreshToken))) }
        else
          { s with callers := (s.callers.set ev.1
              (CallerPhase.done (Except.ok (bearer s.tok.accessToken)))) }
    | CallerPhase.awaitingFetch =>
        match outcomes.getD ev.1 RefreshOutcome.networkError with
        | RefreshOutcome.networkError =>
            { s with callers := (s.callers.set ev.1
                (CallerPhase.done (Except.error RefreshError.networkError))) }
        | RefreshOutcome.httpError status body =>
            { s with callers := (s.callers.set ev.1
                (CallerPhase.done (Except.error (RefreshError.httpError status body)))) }
        | RefreshOutcome.success data =>
            let st' := applyRefreshResponse s.tok ev.2 data
            { s with tok := st',
                     callers := (s.callers.set ev.1
                       (CallerPhase.awaitingSave (saveTokens st'))) }
    | CallerPhase.awaitingSave rec =>
        { s with file := some rec,
                 callers := (s.callers.set ev.1
                   (CallerPhase.done (Except.ok (bearer s.tok.accessToken)))) }
    | CallerPhase.done _ => s

/-- Run a schedule of event-loop resumptions. -/
def runConc (outcomes : List RefreshOutcome) (s : ConcState)
    (sched : List (Nat × Int)) : ConcState :=
  sched.foldl (concStep outcomes) s

/-- The schedule in which callers `0, …, n-1` each run their synchronous
check-and-start-refresh segment before any refresh response has resolved. -/
def overlapSchedule (n : Nat) (t : Int) : List (Nat × Int) :=
  (List.range n).map fun i => (i, t)

/-- The credential states reachable from `t0` by applying complete refresh
responses drawn from `outcomes` (at any completion time): the states a caller
can ever observe, since the response is applied in one synchronous segment. -/
inductive ReachableTok (outcomes : List RefreshOutcome) (t0 : TokenState) :
    TokenState → Prop where
  | base : ReachableTok outcomes t0 t0
  | step (st : TokenState) (now : Int) (data : RefreshResponse) :
      ReachableTok outcomes t0 st →
      RefreshOutcome.success data ∈ outcomes →
      ReachableTok outcomes t0 (applyRefreshResponse st now data)

/-- A contact reference inside a raw appointment (`c` in the loop at
`src/server.js` line 231): its `contact` field is a URL path or nullish. -/
structure RawContactRef where
  contact : Option String
  deriving Repr

/-- A raw appointment from the search response (`appt` in
`getAppointmentsForToday`): `utc_start`/`utc_end` timestamps, `resources`,
optional `contacts` array (`Array.isArray(appt.contacts)` is the `Option`),
optional `title`. -/
structure RawAppt where
  utc_start : Int
  utc_end : Int
  resources : List String
  contacts : Option (List RawContactRef)
  title : Option String
  deriving Repr

/-- Parsed JSON body of a bearer-authenticated API response: the appointment
search (`data.results`, nullish when the field is absent), a contact record
(`contactData.first_name`), or anything else. -/
inductive ApiBody where
  | search (results : Option (List RawAppt))
  | contact (first_name : Option String)
  | other
  deriving Repr

/-- One bearer-authenticated API response, supplied to the model: a status
code and a parsed body. -/
structure ApiResponse where
  status : Nat
  body : ApiBody
  deriving Repr

/-- State threaded through one `/api/appointments` request: the `TokenManager`
fields, the contents of `tokens.json`, the pending upstream responses
(consumed in order by successive fetches), and instrumentation counters for
the claims: authenticated API fetches issued, appointment-search fetches
issued, refresh-endpoint fetches issued, and direct
`tokenManager.refreshAccessToken()` invocations made by the handler's catch
block (the forced, `needsRefresh`-bypassing ones). -/
structure ApiWorld where
  tok : TokenState
  file : FileState
  apiResponses : List ApiResponse
  refreshOutcomes : List RefreshOutcome
  apiCalls : Nat
  searchCalls : Nat
  refreshCalls : Nat
  forcedRefreshes : Nat

/-- Run `refreshAccessToken` inside the request pipeline: when the refresh
token is truthy the `fetch` of the refresh endpoint is issued, consuming the
next element of `refreshOutcomes` and incrementing `refreshCalls`; otherwise
the method throws before fetching. -/
def ApiWorld.doRefresh (w : ApiWorld) (now : Int) :
    Except RefreshError Unit × ApiWorld :=
  if jsTruthyStr w.tok.refreshToken then
    match refreshAccessToken w.tok now (w.refreshOutcomes.headD RefreshOutcome.networkError) with
    | (r, st', wr) =>
        (r, { w with tok := st',
                     file := applyWrite w.file wr,
                     refreshOutcomes := w.refreshOutcomes.tail,
                     refreshCalls := w.refreshCalls + 1 })
  else
    (Except.error RefreshError.noRefreshToken, w)

/-- `getValidToken` inside the request pipeline (`src/server.js`
lines 117-122). -/
def ApiWorld.getValidTokenW (w : ApiWorld) (now : Int) :
    Except RefreshError String × ApiWorld :=
  if needsRefresh now w.tok then
    match w.doRefresh now with
    | (Except.ok _, w') => (Except.ok (bearer w'.tok.accessToken), w')
    | (Except.error e, w') => (Except.error e, w')
  else
    (Except.ok (bearer w.tok.accessToken), w)

/-- An error thrown out of `authenticatedFetch`: a `refreshAccessToken` error
propagating from `getValidToken`, or the
`'401 Unauthorized - Token may have expired'` error thrown at
`src/server.js` line 180. -/
inductive FetchError where
  | refreshErr (e : RefreshError)
  | unauthorized
  deriving Repr, DecidableEq

/-- The `message` of the thrown error, as the source builds it
(`src/server.js` lines 66, 86, 180; a Node transport failure rejects with
`TypeError: fetch failed`, whose message is `"fetch failed"`). -/
def FetchError.message : FetchError → String
  | FetchError.unauthorized => "401 Unauthorized - Token may have expired"
  | FetchError.refreshErr RefreshError.noRefreshToken => "No refresh token available"
  | FetchError.refreshErr (RefreshError.httpError status body) =>
      "Failed to refresh token: " ++ toString status ++ " - " ++ body
  | FetchError.refreshErr RefreshError.networkError => "fetch failed"

/-- Whether `pat` is an initial segment of `cs`. -/
def charsStartWith : List Char → List Char → Bool
  | [], _ => true
  | _ :: _, [] => false
  | a :: pat, b :: cs => a == b && charsStartWith pat cs

/-- Whether `pat` occurs contiguously inside `cs`. -/
def charsContain (pat : List Char) : List Char → Bool
  | [] => charsStartWith pat []
  | b :: cs => charsStartWith pat (b :: cs) || charsContain pat cs

/-- JS `String.prototype.includes(sub)` for a non-empty `sub`: true when `sub`
occurs in `s`. -/
def strIncludes (sub s : String) : Bool :=
  charsContain sub.toList s.toList

/-- `authenticatedFetch` (`src/server.js` lines 165-184): obtain a valid
bearer token via `getValidToken` (its errors propagate), issue the request
(consuming the next pending upstream response), and throw the
`'401 Unauthorized...'` error when the status is 401.  `isSearch` records
whether this call site is the appointment search (instrumentation only). -/
def ApiWorld.authFetch (w : ApiWorld) (now : Int) (isSearch : Bool) :
    Except FetchError ApiResponse × ApiWorld :=
  match w.getValidTokenW now with
  | (Except.error e, w') => (Except.error (FetchError.refreshErr e), w')
  | (Except.ok _, w') =>
      let resp := w'.apiResponses.headD { status := 500, body := ApiBody.other }
      let w'' := { w' with apiResponses := w'.apiResponses.tail,
                           apiCalls := w'.apiCalls + 1,
                           searchCalls := w'.searchCalls + (if isSearch then 1 else 0) }
      if resp.status = 401 then
        (Except.error FetchError.unauthorized, w'')
      else
        (Except.ok resp, w'')

/-- `contactData.first_name` of a contact response body (nullish when the
body has no such field). -/
def firstNameOf : ApiBody → Option String
  | ApiBody.contact fn => fn
  | _ => none

/-- The inner contact loop of `getAppointmentsForToday`
(`src/server.js` lines 229-243): for each `c` with a truthy `c.contact`,
fetch the contact via `authenticatedFetch` (its throw propagates) and push a
truthy `first_name`. -/
def fetchContactNames (now : Int) : List RawContactRef → ApiWorld →
    Except FetchError (List String) × ApiWorld
  | [], w => (Except.ok [], w)
  | c :: rest, w =>
      if jsTruthyStr c.contact then
        match w.authFetch now false with
        | (Except.error e, w') => (Except.error e, w')
        | (Except.ok resp, w') =>
            match fetchContactNames now rest w' with
            | (Except.error e, w'') => (Except.error e, w'')
            | (Except.ok names, w'') =>
                match firstNameOf resp.body with
                | some fn => if fn ≠ "" then (Except.ok (fn :: names), w'')
                             else (Except.ok names, w'')
                | none => (Except.ok names, w'')
      else
        fetchContactNames now rest w

/-- The outer loop of `getAppointmentsForToday` (`src/server.js`
lines 216-252): classify the room by `appt.resources.join()` (default `","`
separator), fetch contact first names, and build the appointment object. -/
def processAppts (now : Int) : List RawAppt → ApiWorld →
    Except FetchError (List Appointment) × ApiWorld
  | [], w => (Except.ok [], w)
  | a :: rest, w =>
      let room := if String.intercalate "," a.resources = "/v1/resources/2015"
                  then "Large" else "Small"
      match fetchContactNames now (a.contacts.getD []) w with
      | (Except.error e, w') => (Except.error e, w')
      | (Except.ok names, w') =>
          match processAppts now rest w' with
          | (Except.error e, w'') => (Except.error e, w'')
          | (Except.ok appts, w'') =>
              (Except.ok ({ start := a.utc_start, «end» := a.utc_end,
                            names := names, room := room,
                            title := a.title.getD "" } :: appts), w'')

/-- `getAppointmentsForToday` (`src/server.js` lines 187-255): the
appointment-search `authenticatedFetch` (the construction of the search URL
and date-range body is elided — responses are supplied), `data.results || []`,
then the per-appointment processing.  Any `authenticatedFetch` throw
propagates. -/
def getAppointmentsForToday (w : ApiWorld) (now : Int) :
    Except FetchError (List Appointment) × ApiWorld :=
  match w.authFetch now true with
  | (Except.error e, w') => (Except.error e, w')
  | (Except.ok res, w') =>
      let results := match res.body with
        | ApiBody.search (some l) => l
        | _ => []
      processAppts now results w'

/-- The HTTP response sent by the `/api/appointments` handler:
`res.json(relevantAppointments)` or `res.status(500).json({ error: ... })`. -/
inductive HandlerResult where
  | json (appointments : List DisplayAppointment)
  | serverError
  deriving Repr, DecidableEq

/-- The rerun of the pipeline after a successful forced refresh (the body of
the inner `try` at `src/server.js` lines 149-154): fetch and filter again,
answering with the JSON list; any error it throws is caught by the inner
`catch` and falls through to the 500 response. -/
def retryStage (w : ApiWorld) (now : Int) : HandlerResult × ApiWorld :=
  match getAppointmentsForToday w now with
  | (Except.ok appts, w') =>
      (HandlerResult.json (filterRelevantAppointments now appts), w')
  | (Except.error _, w') => (HandlerResult.serverError, w')

/-- The `/api/appointments` handler (`src/server.js` lines 139-162): try the
pipeline; on a thrown error whose message contains `'401'`, invoke
`tokenManager.refreshAccessToken()` directly (the forced,
`needsRefresh`-bypassing refresh) and run `retryStage` once; any error of the
forced refresh falls through to the 500 response; on any other error respond
500 immediately. -/
def handleAppointments (w : ApiWorld) (now : Int) : HandlerResult × ApiWorld :=
  match getAppointmentsForToday w now with
  | (Except.ok appts, w') =>
      (HandlerResult.json (filterRelevantAppointments now appts), w')
  | (Except.error e, w') =>
      if strIncludes "401" (FetchError.message e) then
        let w1 := { w' with forcedRefreshes := w'.forcedRefreshes + 1 }
        match w1.doRefresh now with
        | (Except.ok _, w2) => retryStage w2 now
        | (Except.error _, w2) => (HandlerResult.serverError, w2)
      else
        (HandlerResult.serverError, w')

/-- Any thrown `refreshAccessToken` error leaves the instance state as it
was: every `throw` in the method precedes the first field assignment. -/
theorem refreshAccessToken_error_state (st : TokenState) (now : Int)
    (o : RefreshOutcome) (e : RefreshError)
    (h : (refreshAccessToken st now o).1 = Except.error e) :
    (refreshAccessToken st now o).2.1 = st := by
  unfold refreshAccessToken at *
  by_cases hrt : jsTruthyStr st.refreshToken
  · cases o <;> simp [hrt] at h ⊢
  · simp [hrt]

/-- Claim C5: for every credential whose expiry is strictly more than 5
minutes after the current time, `needsRefresh()` returns false; for every
other credential (expiry unset, or at most 5 minutes away, including exactly
5 minutes), `needsRefresh()` returns true. -/
theorem claim_C5_needsRefresh (now : Int) (st : TokenState) :
    (needsRefresh now st = false ↔
      ∃ e, st.tokenExpiry = some e ∧ now + 5 * 60 * 1000 < e) ∧
    (needsRefresh now st = true ↔
      st.tokenExpiry = none ∨
        ∃ e, st.tokenExpiry = some e ∧ e ≤ now + 5 * 60 * 1000) := by
  unfold needsRefresh
  cases h : st.tokenExpiry with
  | none => simp
  | some e =>
      constructor
      · simp only [decide_eq_false_iff_not, not_le, Option.some.injEq]
        constructor
        · intro hlt
          exact ⟨e, rfl, hlt⟩
        · rintro ⟨e', he', hlt⟩
          omega
      · simp only [decide_eq_true_eq, Option.some.injEq]
        constructor
        · intro hle
          exact Or.inr ⟨e, rfl, hle⟩
        · rintro (hc | ⟨e', he', hle⟩)
          · exact absurd hc (by simp)
          · omega

/-- Claim C2: when a `refresh()` invocation fails because the upstream
returns a non-2xx status or the transport fails, the previously held access
token, refresh token and expiry are all unchanged (the state component is the
input state), nothing is persisted, and the corresponding error propagates to
the caller. -/
theorem claim_C2_failed_refresh (st : TokenState) (now : Int)
    (hrt : jsTruthyStr st.refreshToken = true) :
    (∀ status body,
        refreshAccessToken st now (RefreshOutcome.httpError status body) =
          (Except.error (RefreshError.httpError status body), st, none)) ∧
    refreshAccessToken st now RefreshOutcome.networkError =
      (Except.error RefreshError.networkError, st, none) := by
  unfold refreshAccessToken
  simp [hrt]

/-- Witness for claim C2 at a concrete credential. -/
theorem claim_C2_witness :
    refreshAccessToken
        { accessToken := some "oldA", refreshToken := some "oldR",
          tokenExpiry := some 1000 } 0 RefreshOutcome.networkError =
      (Except.error RefreshError.networkError,
       { accessToken := some "oldA", refreshToken := some "oldR",
         tokenExpiry := some 1000 }, none) :=
  (claim_C2_failed_refresh
    { accessToken := some "oldA", refreshToken := some "oldR",
      tokenExpiry := some 1000 } 0 (by decide)).2

/-- Counterexample to claim C4 as stated: a successful refresh whose response
carries `expires_in: 0` and `refresh_token: ""`.  The claim predicts expiry
`now + 0` (the 3600 default applies only when `expires_in` is absent) and a
replaced refresh token (the response supplies one); the code's `||` defaults
treat both supplied falsy values as absent, yielding expiry `now + 3600s` and
the old refresh token. -/
theorem claim_C4_counterexample :
    ((refreshAccessToken
        { accessToken := some "oldA", refreshToken := some "oldR",
          tokenExpiry := some 0 } 5
        (RefreshOutcome.success
          { access_token := some "newA", token := none,
            refresh_token := some "", expires_in := some 0 })).2.1.tokenExpiry =
        some 3600005 ∧
      (refreshAccessToken
        { accessToken := some "oldA", refreshToken := some "oldR",
          tokenExpiry := some 0 } 5
        (RefreshOutcome.success
          { access_token := some "newA", token := none,
            refresh_token := some "", expires_in := some 0 })).2.1.tokenExpiry ≠
        some 5) ∧
    ((refreshAccessToken
        { accessToken := some "oldA", refreshToken := some "oldR",
          tokenExpiry := some 0 } 5
        (RefreshOutcome.success
          { access_token := some "newA", token := none,
            refresh_token := some "", expires_in := some 0 })).2.1.refreshToken =
        some "oldR" ∧
      (refreshAccessToken
        { accessToken := some "oldA", refreshToken := some "oldR",
          tokenExpiry := some 0 } 5
        (RefreshOutcome.success
          { access_token := some "newA", token := none,
            refresh_token := some "", expires_in := some 0 })).2.1.refreshToken ≠
        some "") := by
  refine ⟨⟨?_, ?_⟩, ?_, ?_⟩ <;> decide

/-- Claim C4 (amended): every successful `refresh()` atomically sets expiry
to refresh-completion time plus the response's `expires_in` seconds —
defaulting to 3600 when `expires_in` is absent or `0` —, replaces the access
token with the response's `access_token` (when that is a non-empty string),
replaces the refresh token if and only if the response supplies a non-empty
`refresh_token` (otherwise keeping the old one), and then persists exactly
the new credential to the store. -/
theorem claim_C4_amended (st : TokenState) (now : Int) (data : RefreshResponse)
    (hrt : jsTruthyStr st.refreshToken = true) :
    ∃ st', refreshAccessToken st now (RefreshOutcome.success data) =
        (Except.ok (), st', some (saveTokens st')) ∧
      (∀ n, data.expires_in = some n → n ≠ 0 →
        st'.tokenExpiry = some (now + n * 1000)) ∧
      ((data.expires_in = none ∨ data.expires_in = some 0) →
        st'.tokenExpiry = some (now + 3600 * 1000)) ∧
      (∀ a, data.access_token = some a → a ≠ "" →
        st'.accessToken = some a) ∧
      (∀ rt, data.refresh_token = some rt → rt ≠ "" →
        st'.refreshToken = some rt) ∧
      ((data.refresh_token = none ∨ data.refresh_token = some "") →
        st'.refreshToken = st.refreshToken) := by
  refine ⟨applyRefreshResponse st now data, ?_, ?_, ?_, ?_, ?_, ?_⟩
  · unfold refreshAccessToken
    simp [hrt]
  · intro n hn hn0
    simp [applyRefreshResponse, jsOrNum, hn, hn0]
  · rintro (h | h) <;> simp [applyRefreshResponse, jsOrNum, h]
  · intro a ha ha0
    simp [applyRefreshResponse, jsOrStr, jsTruthyStr, ha, ha0]
  · intro rt h h0
    simp [applyRefreshResponse, jsOrStr, jsTruthyStr, h, h0]
  · rintro (h | h) <;> simp [applyRefreshResponse, jsOrStr, jsTruthyStr, h]

/-- Witness for the amended claim C4 at a concrete credential and response. -/
theorem claim_C4_witness :
    ∃ st', refreshAccessToken
        { accessToken := some "oldA", refreshToken := some "oldR",
          tokenExpiry := some 0 } 7
        (RefreshOutcome.success
          { access_token := some "newA", token := none,
            refresh_token := some "newR", expires_in := some 60 }) =
        (Except.ok (), st', some (saveTokens st')) ∧
      (∀ n, (some 60 : Option Int) = some n → n ≠ 0 →
        st'.tokenExpiry = some (7 + n * 1000)) ∧
      (((some 60 : Option Int) = none ∨ (some 60 : Option Int) = some 0) →
        st'.tokenExpiry = some (7 + 3600 * 1000)) ∧
      (∀ a, (some "newA" : Option String) = some a → a ≠ "" →
        st'.accessToken = some a) ∧
      (∀ rt, (some "newR" : Option String) = some rt → rt ≠ "" →
        st'.refreshToken = some rt) ∧
      (((some "newR" : Option String) = none ∨ (some "newR" : Option String) = some "") →
        st'.refreshToken = some "oldR") :=
  claim_C4_amended
    { accessToken := some "oldA", refreshToken := some "oldR",
      tokenExpiry := some 0 } 7
    { access_token := some "newA", token := none,
      refresh_token := some "newR", expires_in := some 60 } (by decide)

/-- Counterexample to claim C6 as stated: a credential whose refresh token is
`null`, saved and loaded on a restart whose environment supplies
`DAYLITE_REFRESH_TOKEN`.  `load` evaluates `tokens.refreshToken ||
this.refreshToken`, so the falsy saved value is replaced by the environment
token and the round trip is not field-for-field equal. -/
theorem claim_C6_counterexample :
    loadIntoState
        (TokenManager.construct
          { DAYLITE_ACCESS_TOKEN := none, DAYLITE_REFRESH_TOKEN := some "envRT" })
        (saveTokens
          { accessToken := some "a", refreshToken := none, tokenExpiry := some 123 }) ≠
      { accessToken := some "a", refreshToken := none, tokenExpiry := some 123 } := by
  decide

/-- Claim C6 (amended): `save(credential)` followed by `load()` after a
process restart yields a credential whose access token and expiry always
equal the saved ones, and whose refresh token equals the saved one whenever
the saved refresh token is non-null and non-empty; when the saved refresh
token is null or empty, `load` substitutes the restarted constructor's
environment refresh token in that one field. -/
theorem claim_C6_amended (st : TokenState) (env : Env) :
    (loadIntoState (TokenManager.construct env) (saveTokens st)).accessToken =
      st.accessToken ∧
    (loadIntoState (TokenManager.construct env) (saveTokens st)).tokenExpiry =
      st.tokenExpiry ∧
    (jsTruthyStr st.refreshToken = true →
      (loadIntoState (TokenManager.construct env) (saveTokens st)).refreshToken =
        st.refreshToken) ∧
    (jsTruthyStr st.refreshToken = false →
      (loadIntoState (TokenManager.construct env) (saveTokens st)).refreshToken =
        (TokenManager.construct env).refreshToken) := by
  refine ⟨rfl, rfl, ?_, ?_⟩ <;> intro h <;>
    simp [loadIntoState, saveTokens, TokenManager.construct, jsOrStr, h]

/-- Witness for the amended claim C6 at a concrete credential. -/
theorem claim_C6_witness :
    (loadIntoState
        (TokenManager.construct
          { DAYLITE_ACCESS_TOKEN := none, DAYLITE_REFRESH_TOKEN := some "envRT" })
        (saveTokens
          { accessToken := some "a", refreshToken := some "r", tokenExpiry := some 5 })).accessToken =
      some "a" ∧
    (loadIntoState
        (TokenManager.construct
          { DAYLITE_ACCESS_TOKEN := none, DAYLITE_REFRESH_TOKEN := some "envRT" })
        (saveTokens
          { accessToken := some "a", refreshToken := some "r", tokenExpiry := some 5 })).tokenExpiry =
      some 5 ∧
    (loadIntoState
        (TokenManager.construct
          { DAYLITE_ACCESS_TOKEN := none, DAYLITE_REFRESH_TOKEN := some "envRT" })
        (saveTokens
          { accessToken := some "a", refreshToken := some "r", tokenExpiry := some 5 })).refreshToken =
      some "r" := by
  have h := claim_C6_amended
    { accessToken := some "a", refreshToken := some "r", tokenExpiry := some 5 }
    { DAYLITE_ACCESS_TOKEN := none, DAYLITE_REFRESH_TOKEN := some "envRT" }
  exact ⟨h.1, h.2.1, h.2.2.1 (by decide)⟩

/-- Claim C7: when no persisted credential is available and the environment
supplies neither an initial access token nor a refresh token, `initialize()`
throws the no-tokens configuration error and `startServer` aborts startup
with `process.exit(1)`. -/
theorem claim_C7_no_material (env : Env) (now : Int) (outcomes : List RefreshOutcome)
    (hA : jsTruthyStr env.DAYLITE_ACCESS_TOKEN = false)
    (hR : jsTruthyStr env.DAYLITE_REFRESH_TOKEN = false) :
    (TokenManager.init env none now outcomes).result =
      Except.error InitError.noTokens ∧
    startServer env none now outcomes = ServerStatus.exited 1 := by
  have hres : (TokenManager.init env none now outcomes).result =
      Except.error InitError.noTokens := by
    unfold TokenManager.init initCatch TokenManager.construct
    simp [hA, hR, show jsTruthyStr (none : Option String) = false from rfl]
  refine ⟨hres, ?_⟩
  unfold startServer
  rw [hres]

/-- Witness for claim C7 at a concrete empty environment. -/
theorem claim_C7_witness :
    (TokenManager.init
        { DAYLITE_ACCESS_TOKEN := none, DAYLITE_REFRESH_TOKEN := none }
        none 0 []).result = Except.error InitError.noTokens ∧
    startServer { DAYLITE_ACCESS_TOKEN := none, DAYLITE_REFRESH_TOKEN := none }
        none 0 [] = ServerStatus.exited 1 :=
  claim_C7_no_material
    { DAYLITE_ACCESS_TOKEN := none, DAYLITE_REFRESH_TOKEN := none }
    0 [] (by decide) (by decide)

/-- Claim C8: a corrupt persisted record is treated exactly as no prior
state — `initialize` on a corrupt file produces the same outcome and the
same credential state as on a missing file, propagating no parse error — and
when the environment supplies an access token it then seeds from the
environment and succeeds without raising. -/
theorem claim_C8_corrupt_record (env : Env) (now : Int)
    (outcomes : List RefreshOutcome) :
    ((TokenManager.init env (some (Except.error ())) now outcomes).result =
        (TokenManager.init env none now outcomes).result ∧
      (TokenManager.init env (some (Except.error ())) now outcomes).st =
        (TokenManager.init env none now outcomes).st) ∧
    (jsTruthyStr env.DAYLITE_ACCESS_TOKEN = true →
      (TokenManager.init env (some (Except.error ())) now outcomes).result =
        Except.ok () ∧
      (TokenManager.init env (some (Except.error ())) now outcomes).st.accessToken =
        env.DAYLITE_ACCESS_TOKEN ∧
      (TokenManager.init env (some (Except.error ())) now outcomes).st.tokenExpiry =
        some (now + 60 * 60 * 1000)) := by
  unfold TokenManager.init initCatch
  by_cases hA : jsTruthyStr env.DAYLITE_ACCESS_TOKEN
  · simp [hA]
  · by_cases hR : jsTruthyStr (TokenManager.construct env).refreshToken
    · simp only [hA, if_false, hR, if_true]
      cases h : refreshAccessToken (TokenManager.construct env) now
          (outcomes.headD RefreshOutcome.networkError) with
      | mk r rest =>
        cases r <;> simp [hA]
    · simp [hA, hR]

/-- Witness for claim C8 at a concrete environment with an access token. -/
theorem claim_C8_witness :
    ((TokenManager.init
        { DAYLITE_ACCESS_TOKEN := some "envA", DAYLITE_REFRESH_TOKEN := none }
        (some (Except.error ())) 0 []).result =
        (TokenManager.init
          { DAYLITE_ACCESS_TOKEN := some "envA", DAYLITE_REFRESH_TOKEN := none }
          none 0 []).result ∧
      (TokenManager.init
        { DAYLITE_ACCESS_TOKEN := some "envA", DAYLITE_REFRESH_TOKEN := none }
        (some (Except.error ())) 0 []).st =
        (TokenManager.init
          { DAYLITE_ACCESS_TOKEN := some "envA", DAYLITE_REFRESH_TOKEN := none }
          none 0 []).st) ∧
    ((TokenManager.init
        { DAYLITE_ACCESS_TOKEN := some "envA", DAYLITE_REFRESH_TOKEN := none }
        (some (Except.error ())) 0 []).result = Except.ok () ∧
      (TokenManager.init
        { DAYLITE_ACCESS_TOKEN := some "envA", DAYLITE_REFRESH_TOKEN := none }
        (some (Except.error ())) 0 []).st.accessToken = some "envA" ∧
      (TokenManager.init
        { DAYLITE_ACCESS_TOKEN := some "envA", DAYLITE_REFRESH_TOKEN := none }
        (some (Except.error ())) 0 []).st.tokenExpiry = some 3600000) := by
  have h := claim_C8_corrupt_record
    { DAYLITE_ACCESS_TOKEN := some "envA", DAYLITE_REFRESH_TOKEN := none } 0 []
  exact ⟨h.1, h.2 (by decide)⟩

/-- Claim C10: when `initialize()` successfully loads a persisted credential
but the refresh it then triggers (because `needsRefresh()` is true) fails,
the failure is not propagated: control falls into the catch (no-prior-state)
branch on the loaded state — re-seeding the access token and expiry from the
environment when `DAYLITE_ACCESS_TOKEN` is set, otherwise re-attempting a
refresh via the loaded refresh token, otherwise throwing the
no-tokens-available error. -/
theorem claim_C10_refresh_failure_falls_to_catch (env : Env) (rec : TokenRecord)
    (now : Int) (o : RefreshOutcome) (rest : List RefreshOutcome) (e : RefreshError)
    (hNR : needsRefresh now (loadIntoState (TokenManager.construct env) rec) = true)
    (hfail : (refreshAccessToken (loadIntoState (TokenManager.construct env) rec) now o).1 =
      Except.error e) :
    TokenManager.init env (some (Except.ok rec)) now (o :: rest) =
      initCatch env (loadIntoState (TokenManager.construct env) rec)
        (some (Except.ok rec)) now (rest.headD RefreshOutcome.networkError) ∧
    (jsTruthyStr env.DAYLITE_ACCESS_TOKEN = true →
      (TokenManager.init env (some (Except.ok rec)) now (o :: rest)).result =
        Except.ok () ∧
      (TokenManager.init env (some (Except.ok rec)) now (o :: rest)).st.accessToken =
        env.DAYLITE_ACCESS_TOKEN) ∧
    (jsTruthyStr env.DAYLITE_ACCESS_TOKEN = false →
      jsTruthyStr (loadIntoState (TokenManager.construct env) rec).refreshToken = false →
      (TokenManager.init env (some (Except.ok rec)) now (o :: rest)).result =
        Except.error InitError.noTokens) := by
  have hst := refreshAccessToken_error_state
    (loadIntoState (TokenManager.construct env) rec) now o e hfail
  have hmain : TokenManager.init env (some (Except.ok rec)) now (o :: rest) =
      initCatch env (loadIntoState (TokenManager.construct env) rec)
        (some (Except.ok rec)) now (rest.headD RefreshOutcome.networkError) := by
    unfold TokenManager.init
    simp only [List.headD_cons, List.tail_cons, hNR, if_true]
    cases hr : refreshAccessToken (loadIntoState (TokenManager.construct env) rec) now o with
    | mk r p =>
      cases p with
      | mk st2 w =>
        rw [hr] at hfail hst
        simp only at hfail hst
        cases r with
        | ok u => exact absurd hfail (by simp)
        | error e' => rw [hst]
  refine ⟨hmain, ?_, ?_⟩
  · intro hA
    rw [hmain]
    unfold initCatch
    simp [hA]
  · intro hA hRT
    rw [hmain]
    unfold initCatch
    simp [hA, hRT]

/-- Witness for claim C10: a loaded credential with a stale expiry whose
refresh fails over the network, in an environment carrying an access token. -/
theorem claim_C10_witness :
    TokenManager.init
        { DAYLITE_ACCESS_TOKEN := some "envA", DAYLITE_REFRESH_TOKEN := none }
        (some (Except.ok
          { accessToken := some "a", refreshToken := some "r", tokenExpiry := some 0 }))
        1000 [RefreshOutcome.networkError] =
      initCatch { DAYLITE_ACCESS_TOKEN := some "envA", DAYLITE_REFRESH_TOKEN := none }
        (loadIntoState
          (TokenManager.construct
            { DAYLITE_ACCESS_TOKEN := some "envA", DAYLITE_REFRESH_TOKEN := none })
          { accessToken := some "a", refreshToken := some "r", tokenExpiry := some 0 })
        (some (Except.ok
          { accessToken := some "a", refreshToken := some "r", tokenExpiry := some 0 }))
        1000 RefreshOutcome.networkError ∧
    (TokenManager.init
        { DAYLITE_ACCESS_TOKEN := some "envA", DAYLITE_REFRESH_TOKEN := none }
        (some (Except.ok
          { accessToken := some "a", refreshToken := some "r", tokenExpiry := some 0 }))
        1000 [RefreshOutcome.networkError]).result = Except.ok () ∧
    (TokenManager.init
        { DAYLITE_ACCESS_TOKEN := some "envA", DAYLITE_REFRESH_TOKEN := none }
        (some (Except.ok
          { accessToken := some "a", refreshToken := some "r", tokenExpiry := some 0 }))
        1000 [RefreshOutcome.networkError]).st.accessToken = some "envA" := by
  have h := claim_C10_refresh_failure_falls_to_catch
    { DAYLITE_ACCESS_TOKEN := some "envA", DAYLITE_REFRESH_TOKEN := none }
    { accessToken := some "a", refreshToken := some "r", tokenExpiry := some 0 }
    1000 RefreshOutcome.networkError [] RefreshError.networkError
    (by decide) (by rfl)
  exact ⟨h.1, (h.2.1 (by decide)).1, (h.2.1 (by decide)).2⟩

/-- Claim C9: the relevance filter is a pure function of the appointment list
and the current time keeping exactly — same elements, order and multiplicity —
those appointments that start within the next 30 minutes (start strictly
after `now` and at most `now + 30` minutes) or are currently in progress
(start at or before `now` and end strictly after `now`). -/
theorem claim_C9_relevance_filter (now : Int) (appointments : List Appointment) :
    (filterRelevantAppointments now appointments).map DisplayAppointment.appt =
      appointments.filter fun a =>
        decide ((now < a.start ∧ a.start ≤ now + 30 * 60 * 1000) ∨
                (a.start ≤ now ∧ now < a.«end»)) := by
  unfold filterRelevantAppointments
  rw [List.map_map]
  have hid : ∀ l : List Appointment,
      l.map (DisplayAppointment.appt ∘ fun appt =>
        if appt.start ≤ now ∧ appt.«end» > now then
          { appt := appt, status := "in-progress", minutesUntilStart := 0 }
        else
          { appt := appt, status := "upcoming",
            minutesUntilStart := roundMinutes (appt.start - now) }) = l := by
    intro l
    induction l with
    | nil => rfl
    | cons a t ih =>
        simp only [List.map_cons, ih, Function.comp]
        split <;> simp
  rw [hid]
  apply List.filter_congr
  intro a _
  by_cases h1 : now < a.start <;>
    by_cases h2 : a.start ≤ now + 30 * 60 * 1000 <;>
      by_cases h3 : a.start ≤ now <;>
        by_cases h4 : now < a.«end» <;>
          simp [h1, h2, h3, h4]

/-- Counterexample to claim C1 as stated: two concurrent `getValidToken()`
calls with `needsRefresh()` true.  Under the event-loop schedule in which both
callers run their synchronous check before either refresh response resolves
(each then completing normally), two upstream refresh fetches are issued, not
one. -/
theorem claim_C1_counterexample :
    needsRefresh 0
      { accessToken := some "a0", refreshToken := some "rt", tokenExpiry := none } = true ∧
    (runConc
        [RefreshOutcome.success
          { access_token := some "a1", token := none,
            refresh_token := some "rt2", expires_in := none },
         RefreshOutcome.success
          { access_token := some "a1", token := none,
            refresh_token := some "rt2", expires_in := none }]
        { tok := { accessToken := some "a0", refreshToken := some "rt",
                   tokenExpiry := none },
          file := none, refreshCalls := 0,
          callers := [CallerPhase.ready, CallerPhase.ready] }
        [(0, 0), (1, 0), (0, 3), (1, 4), (0, 5), (1, 6)]).refreshCalls = 2 ∧
    (2 : Nat) ≠ 1 := by
  refine ⟨by decide, by rfl, by decide⟩

/-- A resumption never changes the credential fields except by applying one
complete refresh response drawn from `outcomes`: the three assignments of
lines 91-96 of the source run in one synchronous segment. -/
theorem concStep_tok_cases (outcomes : List RefreshOutcome) (s : ConcState)
    (ev : Nat × Int) :
    (concStep outcomes s ev).tok = s.tok ∨
    ∃ data, RefreshOutcome.success data ∈ outcomes ∧
      (concStep outcomes s ev).tok = applyRefreshResponse s.tok ev.2 data := by
  unfold concStep
  cases hc : s.callers.get? ev.1 with
  | none => exact Or.inl rfl
  | some phase =>
    cases phase with
    | ready =>
        by_cases h1 : needsRefresh ev.2 s.tok <;>
          by_cases h2 : jsTruthyStr s.tok.refreshToken <;>
            simp [h1, h2]
    | awaitingFetch =>
        cases ho : outcomes.getD ev.1 RefreshOutcome.networkError with
        | success data =>
            refine Or.inr ⟨data, ?_, rfl⟩
            rw [List.getD_eq_getElem?_getD] at ho
            cases hg : outcomes[ev.1]? with
            | none => rw [hg] at ho; exact absurd ho (by simp)
            | some o =>
                rw [hg] at ho
                simp only [Option.getD_some] at ho
                rw [ho] at hg
                exact List.get?_mem (by rw [List.get?_eq_getElem?]; exact hg)
        | httpError status body => exact Or.inl rfl
        | networkError => exact Or.inl rfl
    | awaitingSave rec => exact Or.inl rfl
    | done r => exact Or.inl rfl

/-- Under every schedule, the final credential is reachable from the initial
one by whole refresh-response applications only. -/
theorem runConc_tok_reachable (outcomes : List RefreshOutcome) (t0 : TokenState) :
    ∀ (sched : List (Nat × Int)) (s : ConcState),
      ReachableTok outcomes t0 s.tok →
      ReachableTok outcomes t0 (runConc outcomes s sched).tok := by
  intro sched
  induction sched with
  | nil => intro s h; exact h
  | cons ev rest ih =>
      intro s h
      have h' : ReachableTok outcomes t0 (concStep outcomes s ev).tok := by
        rcases concStep_tok_cases outcomes s ev with h1 | ⟨data, hmem, h2⟩
        · rw [h1]; exact h
        · rw [h2]; exact ReachableTok.step _ ev.2 data h hmem
      simpa [runConc, List.foldl_cons] using ih (concStep outcomes s ev) h'

/-- Each ready caller that runs its check while `needsRefresh()` holds and a
refresh token is present starts its own refresh fetch: processing a list of
distinct ready callers at time `t` issues one upstream refresh call per
caller. -/
theorem runConc_overlap_count (outcomes : List RefreshOutcome) (t : Int) :
    ∀ (L : List Nat) (s : ConcState),
      L.Nodup →
      (∀ i ∈ L, s.callers.get? i = some CallerPhase.ready) →
      needsRefresh t s.tok = true →
      jsTruthyStr s.tok.refreshToken = true →
      (runConc outcomes s (L.map fun i => (i, t))).refreshCalls =
        s.refreshCalls + L.length := by
  intro L
  induction L with
  | nil => intro s _ _ _ _; simp [runConc]
  | cons i L ih =>
      intro s hnd hready hNR hrt
      have hi := hready i (List.mem_cons_self i L)
      have hi' : s.callers[i]? = some CallerPhase.ready := by
        rw [← List.get?_eq_getElem?]; exact hi
      have hstep : concStep outcomes s (i, t) =
          { s with refreshCalls := s.refreshCalls + 1,
                   callers := s.callers.set i CallerPhase.awaitingFetch } := by
        simp [concStep, hi', hNR, hrt]
      have hnI : i ∉ L := (List.nodup_cons.mp hnd).1
      have hrest := ih
        { s with refreshCalls := s.refreshCalls + 1,
                 callers := s.callers.set i CallerPhase.awaitingFetch }
        (List.nodup_cons.mp hnd).2
        (by
          intro j hj
          have hji : i ≠ j := fun h => hnI (h ▸ hj)
          simp only [List.get?_eq_getElem?]
          rw [List.getElem?_set_ne hji]
          rw [← List.get?_eq_getElem?]
          exact hready j (List.mem_cons_of_mem i hj))
        hNR hrt
      simp only [List.map_cons, runConc, List.foldl_cons] at hrest ⊢
      rw [hstep]
      rw [hrest]
      simp only [List.length_cons]
      omega

/-- Claim C1 (amended): with `needsRefresh()` true and a refresh token
present, `n` concurrent `getValidToken()` callers whose synchronous check
segments all run before any refresh response resolves each trigger their own
upstream refresh call — exactly `n` refresh calls in total, not one shared
call.  The credential is nevertheless only ever replaced by complete refresh
responses applied atomically between `await` points, so under every schedule
no caller observes a half-updated credential. -/
theorem claim_C1_amended (outcomes : List RefreshOutcome) (s : ConcState)
    (n : Nat) (t : Int)
    (hcallers : s.callers = List.replicate n CallerPhase.ready)
    (hNR : needsRefresh t s.tok = true)
    (hrt : jsTruthyStr s.tok.refreshToken = true) :
    (runConc outcomes s (overlapSchedule n t)).refreshCalls = s.refreshCalls + n ∧
    ∀ sched : List (Nat × Int),
      ReachableTok outcomes s.tok (runConc outcomes s sched).tok := by
  constructor
  · have hmain := runConc_overlap_count outcomes t (List.range n) s
      (List.nodup_range n)
      (by
        intro i hi
        rw [hcallers, List.get?_eq_getElem?, List.getElem?_replicate]
        simp [List.mem_range.mp hi])
      hNR hrt
    simpa [overlapSchedule] using hmain
  · intro sched
    exact runConc_tok_reachable outcomes s.tok sched s ReachableTok.base

/-- Witness for the amended claim C1 with two concurrent callers. -/
theorem claim_C1_witness :
    (runConc
        [RefreshOutcome.success
          { access_token := some "a1", token := none,
            refresh_token := some "rt2", expires_in := none }]
        { tok := { accessToken := some "a0", refreshToken := some "rt",
                   tokenExpiry := none },
          file := none, refreshCalls := 0,
          callers := [CallerPhase.ready, CallerPhase.ready] }
        (overlapSchedule 2 0)).refreshCalls = 0 + 2 ∧
    ReachableTok
      [RefreshOutcome.success
        { access_token := some "a1", token := none,
          refresh_token := some "rt2", expires_in := none }]
      { accessToken := some "a0", refreshToken := some "rt", tokenExpiry := none }
      (runConc
        [RefreshOutcome.success
          { access_token := some "a1", token := none,
            refresh_token := some "rt2", expires_in := none }]
        { tok := { accessToken := some "a0", refreshToken := some "rt",
                   tokenExpiry := none },
          file := none, refreshCalls := 0,
          callers := [CallerPhase.ready, CallerPhase.ready] }
        [(0, 0), (1, 0), (0, 3)]).tok :=
  ⟨(claim_C1_amended _ _ 2 0 (by rfl) (by decide) (by decide)).1,
   (claim_C1_amended
      [RefreshOutcome.success
        { access_token := some "a1", token := none,
          refresh_token := some "rt2", expires_in := none }]
      { tok := { accessToken := some "a0", refreshToken := some "rt",
                 tokenExpiry := none },
        file := none, refreshCalls := 0,
        callers := [CallerPhase.ready, CallerPhase.ready] }
      2 0 (by rfl) (by decide) (by decide)).2 [(0, 0), (1, 0), (0, 3)]⟩

/-- With a currently valid credential, `authenticatedFetch` performs no
refresh: the manager state, the refresh counter and the forced-refresh
counter are untouched, and only the fetch counters advance. -/
theorem authFetch_stable (w : ApiWorld) (now : Int) (isSearch : Bool)
    (h : needsRefresh now w.tok = false) :
    (w.authFetch now isSearch).2.tok = w.tok ∧
    (w.authFetch now isSearch).2.refreshCalls = w.refreshCalls ∧
    (w.authFetch now isSearch).2.searchCalls =
      w.searchCalls + (if isSearch then 1 else 0) ∧
    (w.authFetch now isSearch).2.forcedRefreshes = w.forcedRefreshes := by
  unfold ApiWorld.authFetch ApiWorld.getValidTokenW
  simp only [h, Bool.false_eq_true, if_false]
  split <;> simp

/-- With a currently valid credential, the contact-lookup loop touches
neither the manager state nor the refresh or search counters. -/
theorem fetchContactNames_stable (now : Int) :
    ∀ (refs : List RawContactRef) (w : ApiWorld),
      needsRefresh now w.tok = false →
      (fetchContactNames now refs w).2.tok = w.tok ∧
      (fetchContactNames now refs w).2.refreshCalls = w.refreshCalls ∧
      (fetchContactNames now refs w).2.searchCalls = w.searchCalls ∧
      (fetchContactNames now refs w).2.forcedRefreshes = w.forcedRefreshes := by
  intro refs
  induction refs with
  | nil => intro w h; exact ⟨rfl, rfl, rfl, rfl⟩
  | cons c rest ih =>
      intro w h
      by_cases hc : jsTruthyStr c.contact
      · cases ha : w.authFetch now false with
        | mk r w' =>
          obtain ⟨ht, hr, hs, hf⟩ := authFetch_stable w now false h
          rw [ha] at ht hr hs hf
          dsimp only at ht hr hs hf
          simp only [if_neg (by simp : ¬ (false = true)), Nat.add_zero] at hs
          cases r with
          | error e =>
              refine ⟨?_, ?_, ?_, ?_⟩ <;>
                simp [fetchContactNames, hc, ha, ht, hr, hs, hf]
          | ok resp =>
              have h' : needsRefresh now w'.tok = false := by rw [ht]; exact h
              obtain ⟨ht2, hr2, hs2, hf2⟩ := ih w' h'
              cases hb : fetchContactNames now rest w' with
              | mk r2 w'' =>
                rw [hb] at ht2 hr2 hs2 hf2
                dsimp only at ht2 hr2 hs2 hf2
                cases r2 with
                | error e =>
                    refine ⟨?_, ?_, ?_, ?_⟩ <;>
                      simp [fetchContactNames, hc, ha, hb, ht, hr, hs, hf,
                            ht2, hr2, hs2, hf2]
                | ok names =>
                    cases hfn : firstNameOf resp.body with
                    | some fn =>
                        by_cases hne : fn = "" <;>
                          refine ⟨?_, ?_, ?_, ?_⟩ <;>
                            simp [fetchContactNames, hc, ha, hb, hfn, hne,
                                  ht, hr, hs, hf, ht2, hr2, hs2, hf2]
                    | none =>
                        refine ⟨?_, ?_, ?_, ?_⟩ <;>
                          simp [fetchContactNames, hc, ha, hb, hfn,
                                ht, hr, hs, hf, ht2, hr2, hs2, hf2]
      · have heq : fetchContactNames now (c :: rest) w = fetchContactNames now rest w := by
          simp [fetchContactNames, hc]
        rw [heq]
        exact ih w h

/-- With a currently valid credential, the appointment-processing loop
touches neither the manager state nor the refresh or search counters. -/
theorem processAppts_stable (now : Int) :
    ∀ (l : List RawAppt) (w : ApiWorld),
      needsRefresh now w.tok = false →
      (processAppts now l w).2.tok = w.tok ∧
      (processAppts now l w).2.refreshCalls = w.refreshCalls ∧
      (processAppts now l w).2.searchCalls = w.searchCalls ∧
      (processAppts now l w).2.forcedRefreshes = w.forcedRefreshes := by
  intro l
  induction l with
  | nil => intro w h; exact ⟨rfl, rfl, rfl, rfl⟩
  | cons a rest ih =>
      intro w h
      cases ha : fetchContactNames now (a.contacts.getD []) w with
      | mk r w' =>
        obtain ⟨ht, hr, hs, hf⟩ := fetchContactNames_stable now (a.contacts.getD []) w h
        rw [ha] at ht hr hs hf
        dsimp only at ht hr hs hf
        cases r with
        | error e =>
            refine ⟨?_, ?_, ?_, ?_⟩ <;>
              simp [processAppts, ha, ht, hr, hs, hf]
        | ok names =>
            have h' : needsRefresh now w'.tok = false := by rw [ht]; exact h
            cases hb : processAppts now rest w' with
            | mk r2 w'' =>
              obtain ⟨ht2, hr2, hs2, hf2⟩ := ih w' h'
              rw [hb] at ht2 hr2 hs2 hf2
              dsimp only at ht2 hr2 hs2 hf2
              cases r2 with
              | error e =>
                  refine ⟨?_, ?_, ?_, ?_⟩ <;>
                    simp [processAppts, ha, hb, ht, hr, hs, hf, ht2, hr2, hs2, hf2]
              | ok appts =>
                  refine ⟨?_, ?_, ?_, ?_⟩ <;>
                    simp [processAppts, ha, hb, ht, hr, hs, hf, ht2, hr2, hs2, hf2]

/-- With a currently valid credential, one run of `getAppointmentsForToday`
performs no refresh, issues exactly one appointment-search fetch, and leaves
the manager state and the forced-refresh counter unchanged. -/
theorem getApp_counters (w : ApiWorld) (now : Int)
    (hvalid : needsRefresh now w.tok = false) :
    (getAppointmentsForToday w now).2.tok = w.tok ∧
    (getAppointmentsForToday w now).2.refreshCalls = w.refreshCalls ∧
    (getAppointmentsForToday w now).2.searchCalls = w.searchCalls + 1 ∧
    (getAppointmentsForToday w now).2.forcedRefreshes = w.forcedRefreshes := by
  cases ha : w.authFetch now true with
  | mk r w' =>
    obtain ⟨ht, hr, hs, hf⟩ := authFetch_stable w now true hvalid
    rw [ha] at ht hr hs hf
    dsimp only at ht hr hs hf
    simp only [if_pos rfl] at hs
    cases r with
    | error e =>
        refine ⟨?_, ?_, ?_, ?_⟩ <;>
          simp [getAppointmentsForToday, ha, ht, hr, hs, hf]
    | ok res =>
        have h' : needsRefresh now w'.tok = false := by rw [ht]; exact hvalid
        simp only [if_pos trivial] at hs
        obtain ⟨ht2, hr2, hs2, hf2⟩ := processAppts_stable now
          (match res.body with
            | ApiBody.search (some l) => l
            | _ => []) w' h'
        refine ⟨?_, ?_, ?_, ?_⟩
        · simp only [getAppointmentsForToday, ha]
          rw [ht2, ht]
        · simp only [getAppointmentsForToday, ha]
          rw [hr2, hr]
        · simp only [getAppointmentsForToday, ha]
          rw [hs2, hs]
        · simp only [getAppointmentsForToday, ha]
          rw [hf2, hf]

/-- A `getAppointmentsForToday` run whose search fetch finds a valid
credential and is answered 401 throws the unauthorized error, consuming the
search response and incrementing only the fetch counters. -/
theorem getApp_first_401 (w : ApiWorld) (now : Int) (r1 : ApiResponse)
    (rs : List ApiResponse)
    (hvalid : needsRefresh now w.tok = false)
    (hresp : w.apiResponses = r1 :: rs)
    (h401 : r1.status = 401) :
    getAppointmentsForToday w now =
      (Except.error FetchError.unauthorized,
       { w with apiResponses := rs, apiCalls := w.apiCalls + 1,
                searchCalls := w.searchCalls + 1 }) := by
  unfold getAppointmentsForToday ApiWorld.authFetch ApiWorld.getValidTokenW
  simp [hvalid, hresp, h401]


/-- The world component of `retryStage` is the world left by its pipeline
run, whichever way that run ends. -/
theorem retryStage_snd (w : ApiWorld) (now : Int) :
    (retryStage w now).2 = (getAppointmentsForToday w now).2 := by
  unfold retryStage
  cases getAppointmentsForToday w now with
  | mk r w' => cases r <;> rfl

/-- Claim C3: when the initial appointment request is answered 401 (with a
valid-looking credential, so no proactive refresh preceded it), the handler
forces exactly one `refreshAccessToken()` call — bypassing the
`needsRefresh` time check — and reissues the pipeline exactly once: one
refresh-endpoint call and exactly one further search fetch when the forced
refresh succeeds (with the 500 failure response when the reissue is also
answered 401), and a 500 failure response with no reissue at all when the
forced refresh itself fails; in neither case is a third attempt made. -/
theorem claim_C3_forced_retry (w : ApiWorld) (now : Int) (r1 r2 : ApiResponse)
    (rs : List ApiResponse) (o : RefreshOutcome) (os : List RefreshOutcome)
    (hvalid : needsRefresh now w.tok = false)
    (hresp : w.apiResponses = r1 :: r2 :: rs)
    (h401 : r1.status = 401)
    (hrt : jsTruthyStr w.tok.refreshToken = true)
    (houts : w.refreshOutcomes = o :: os) :
    (∀ data, o = RefreshOutcome.success data →
      5 * 60 * 1000 < jsOrNum data.expires_in 3600 * 1000 →
      (handleAppointments w now).2.forcedRefreshes = w.forcedRefreshes + 1 ∧
      (handleAppointments w now).2.refreshCalls = w.refreshCalls + 1 ∧
      (handleAppointments w now).2.searchCalls = w.searchCalls + 2 ∧
      (r2.status = 401 → (handleAppointments w now).1 = HandlerResult.serverError)) ∧
    ((∀ data, o ≠ RefreshOutcome.success data) →
      (handleAppointments w now).2.forcedRefreshes = w.forcedRefreshes + 1 ∧
      (handleAppointments w now).2.refreshCalls = w.refreshCalls + 1 ∧
      (handleAppointments w now).2.searchCalls = w.searchCalls + 1 ∧
      (handleAppointments w now).1 = HandlerResult.serverError) := by
  have hga := getApp_first_401 w now r1 (r2 :: rs) hvalid hresp h401
  have hinc : strIncludes "401" (FetchError.message FetchError.unauthorized) = true := by
    decide
  constructor
  · rintro data rfl hexp
    have hdoGen : ∀ w1 : ApiWorld, w1.tok = w.tok →
        w1.refreshOutcomes = w.refreshOutcomes →
        w1.doRefresh now = (Except.ok (),
          { w1 with
            tok := applyRefreshResponse w.tok now data,
            file := applyWrite w1.file
              (some (saveTokens (applyRefreshResponse w.tok now data))),
            refreshOutcomes := os,
            refreshCalls := w1.refreshCalls + 1 }) := by
      intro w1 h1 h2
      unfold ApiWorld.doRefresh
      rw [h1, h2, houts]
      simp [hrt, refreshAccessToken]
    have hfull : handleAppointments w now =
        retryStage
          { w with
            apiResponses := r2 :: rs,
            apiCalls := w.apiCalls + 1,
            searchCalls := w.searchCalls + 1,
            forcedRefreshes := w.forcedRefreshes + 1,
            tok := applyRefreshResponse w.tok now data,
            file := applyWrite w.file
              (some (saveTokens (applyRefreshResponse w.tok now data))),
            refreshOutcomes := os,
            refreshCalls := w.refreshCalls + 1 } now := by
      unfold handleAppointments
      rw [hga]
      dsimp only
      rw [if_pos hinc]
      rw [hdoGen
        { w with
          apiResponses := r2 :: rs,
          apiCalls := w.apiCalls + 1,
          searchCalls := w.searchCalls + 1,
          forcedRefreshes := w.forcedRefreshes + 1 } rfl rfl]
    have hvalid2 : needsRefresh now
        (({ w with
            apiResponses := r2 :: rs,
            apiCalls := w.apiCalls + 1,
            searchCalls := w.searchCalls + 1,
            forcedRefreshes := w.forcedRefreshes + 1,
            tok := applyRefreshResponse w.tok now data,
            file := applyWrite w.file
              (some (saveTokens (applyRefreshResponse w.tok now data))),
            refreshOutcomes := os,
            refreshCalls := w.refreshCalls + 1 } : ApiWorld)).tok = false := by
      show needsRefresh now (applyRefreshResponse w.tok now data) = false
      simp only [needsRefresh, applyRefreshResponse]
      simp only [decide_eq_false_iff_not, not_le]
      omega
    obtain ⟨gt2, gr2, gs2, gf2⟩ := getApp_counters
      { w with
        apiResponses := r2 :: rs,
        apiCalls := w.apiCalls + 1,
        searchCalls := w.searchCalls + 1,
        forcedRefreshes := w.forcedRefreshes + 1,
        tok := applyRefreshResponse w.tok now data,
        file := applyWrite w.file
          (some (saveTokens (applyRefreshResponse w.tok now data))),
        refreshOutcomes := os,
        refreshCalls := w.refreshCalls + 1 } now hvalid2
    refine ⟨?_, ?_, ?_, ?_⟩
    · rw [hfull, retryStage_snd, gf2]
    · rw [hfull, retryStage_snd, gr2]
    · rw [hfull, retryStage_snd, gs2]
    · intro h401b
      have hg401 := getApp_first_401
        { w with
          apiResponses := r2 :: rs,
          apiCalls := w.apiCalls + 1,
          searchCalls := w.searchCalls + 1,
          forcedRefreshes := w.forcedRefreshes + 1,
          tok := applyRefreshResponse w.tok now data,
          file := applyWrite w.file
            (some (saveTokens (applyRefreshResponse w.tok now data))),
          refreshOutcomes := os,
          refreshCalls := w.refreshCalls + 1 } now r2 rs hvalid2 rfl h401b
      rw [hfull]
      unfold retryStage
      rw [hg401]
  · intro hno
    cases o with
    | success data => exact absurd rfl (hno data)
    | httpError status body =>
        have hdoGen : ∀ w1 : ApiWorld, w1.tok = w.tok →
            w1.refreshOutcomes = w.refreshOutcomes →
            w1.doRefresh now = (Except.error (RefreshError.httpError status body),
              { w1 with
                refreshOutcomes := os,
                refreshCalls := w1.refreshCalls + 1 }) := by
          intro w1 h1 h2
          unfold ApiWorld.doRefresh
          rw [h1, h2, houts]
          simp [hrt, refreshAccessToken, applyWrite]
        have hfull : handleAppointments w now =
            (HandlerResult.serverError,
             { w with
               apiResponses := r2 :: rs,
               apiCalls := w.apiCalls + 1,
               searchCalls := w.searchCalls + 1,
               forcedRefreshes := w.forcedRefreshes + 1,
               refreshOutcomes := os,
               refreshCalls := w.refreshCalls + 1 }) := by
          unfold handleAppointments
          rw [hga]
          dsimp only
          rw [if_pos hinc]
          rw [hdoGen
            { w with
              apiResponses := r2 :: rs,
              apiCalls := w.apiCalls + 1,
              searchCalls := w.searchCalls + 1,
              forcedRefreshes := w.forcedRefreshes + 1 } rfl rfl]
        rw [hfull]
        exact ⟨rfl, rfl, rfl, rfl⟩
    | networkError =>
        have hdoGen : ∀ w1 : ApiWorld, w1.tok = w.tok →
            w1.refreshOutcomes = w.refreshOutcomes →
            w1.doRefresh now = (Except.error RefreshError.networkError,
              { w1 with
                refreshOutcomes := os,
                refreshCalls := w1.refreshCalls + 1 }) := by
          intro w1 h1 h2
          unfold ApiWorld.doRefresh
          rw [h1, h2, houts]
          simp [hrt, refreshAccessToken, applyWrite]
        have hfull : handleAppointments w now =
            (HandlerResult.serverError,
             { w with
               apiResponses := r2 :: rs,
               apiCalls := w.apiCalls + 1,
               searchCalls := w.searchCalls + 1,
               forcedRefreshes := w.forcedRefreshes + 1,
               refreshOutcomes := os,
               refreshCalls := w.refreshCalls + 1 }) := by
          unfold handleAppointments
          rw [hga]
          dsimp only
          rw [if_pos hinc]
          rw [hdoGen
            { w with
              apiResponses := r2 :: rs,
              apiCalls := w.apiCalls + 1,
              searchCalls := w.searchCalls + 1,
              forcedRefreshes := w.forcedRefreshes + 1 } rfl rfl]
        rw [hfull]
        exact ⟨rfl, rfl, rfl, rfl⟩

/-- Witness for claim C3: a valid-looking credential, an upstream answering
401 to both the original and the retried search, and a forced refresh that
succeeds with a default one-hour expiry. -/
theorem claim_C3_witness :
    (handleAppointments
        { tok := { accessToken := some "a", refreshToken := some "rt",
                   tokenExpiry := some 10000000 },
          file := none,
          apiResponses := [{ status := 401, body := ApiBody.other },
                           { status := 401, body := ApiBody.other }],
          refreshOutcomes := [RefreshOutcome.success
            { access_token := some "na", token := none,
              refresh_token := none, expires_in := none }],
          apiCalls := 0, searchCalls := 0, refreshCalls := 0,
          forcedRefreshes := 0 } 0).2.forcedRefreshes = 0 + 1 ∧
    (handleAppointments
        { tok := { accessToken := some "a", refreshToken := some "rt",
                   tokenExpiry := some 10000000 },
          file := none,
          apiResponses := [{ status := 401, body := ApiBody.other },
                           { status := 401, body := ApiBody.other }],
          refreshOutcomes := [RefreshOutcome.success
            { access_token := some "na", token := none,
              refresh_token := none, expires_in := none }],
          apiCalls := 0, searchCalls := 0, refreshCalls := 0,
          forcedRefreshes := 0 } 0).2.refreshCalls = 0 + 1 ∧
    (handleAppointments
        { tok := { accessToken := some "a", refreshToken := some "rt",
                   tokenExpiry := some 10000000 },
          file := none,
          apiResponses := [{ status := 401, body := ApiBody.other },
                           { status := 401, body := ApiBody.other }],
          refreshOutcomes := [RefreshOutcome.success
            { access_token := some "na", token := none,
              refresh_token := none, expires_in := none }],
          apiCalls := 0, searchCalls := 0, refreshCalls := 0,
          forcedRefreshes := 0 } 0).2.searchCalls = 0 + 2 ∧
    (handleAppointments
        { tok := { accessToken := some "a", refreshToken := some "rt",
                   tokenExpiry := some 10000000 },
          file := none,
          apiResponses := [{ status := 401, body := ApiBody.other },
                           { status := 401, body := ApiBody.other }],
          refreshOutcomes := [RefreshOutcome.success
            { access_token := some "na", token := none,
              refresh_token := none, expires_in := none }],
          apiCalls := 0, searchCalls := 0, refreshCalls := 0,
          forcedRefreshes := 0 } 0).1 = HandlerResult.serverError := by
  have h := (claim_C3_forced_retry
    { tok := { accessToken := some "a", refreshToken := some "rt",
               tokenExpiry := some 10000000 },
      file := none,
      apiResponses := [{ status := 401, body := ApiBody.other },
                       { status := 401, body := ApiBody.other }],
      refreshOutcomes := [RefreshOutcome.success
        { access_token := some "na", token := none,
          refresh_token := none, expires_in := none }],
      apiCalls := 0, searchCalls := 0, refreshCalls := 0,
      forcedRefreshes := 0 } 0
    { status := 401, body := ApiBody.other }
    { status := 401, body := ApiBody.other } []
    (RefreshOutcome.success
      { access_token := some "na", token := none,
        refresh_token := none, expires_in := none }) []
    (by decide) rfl rfl (by decide) rfl).1
    { access_token := some "na", token := none,
      refresh_token := none, expires_in := none } rfl (by decide)
  exact ⟨h.1, h.2.1, h.2.2.1, h.2.2.2 rfl⟩
